import Mathlib

/-!
Verification development for `scripts/run-test262.py`, a test262 conformance
runner.  The Python script is shallowly embedded below: pure fragments become
Lean functions, file contents are passed in as explicit values, and the
regular-expression searches of the front-matter extractor are translated into
executable character-list matchers that follow the (deterministic, for these
patterns) leftmost-match backtracking semantics of Python's `re.search`.
Whitespace is modelled as ASCII whitespace, which is what the corpus uses.
-/

namespace Test262

/-- Python `\s` on the ASCII range: space, tab, newline, carriage return,
vertical tab, form feed. -/
def isPySpace (c : Char) : Bool :=
  c == ' ' || c == '\t' || c == '\n' || c == '\r' || c == '\x0b' || c == '\x0c'

/-- Substring containment on character lists: Python's `needle in hay`. -/
def containsSub (needle : List Char) : List Char → Bool
  | [] => needle.isEmpty
  | c :: rest => needle.isPrefixOf (c :: rest) || containsSub needle rest

/-- Python's `needle in hay` for strings. -/
def strContains (hay needle : String) : Bool :=
  containsSub needle.data hay.data

/-- Match a literal: if `lit` is a prefix of `cs`, return the remainder. -/
def stripLit : List Char → List Char → Option (List Char)
  | [], cs => some cs
  | _ :: _, [] => none
  | p :: ps, c :: cs => if p = c then stripLit ps cs else none

/-- The `\s*\n\s+` fragment of `NEGATIVE_PHASE_RE`: a run of whitespace that
contains a newline somewhere before its last character.  The whole maximal
whitespace run is consumed (the following literal is not whitespace, so the
backtracking engine cannot stop earlier). -/
def wsGap (cs : List Char) : Option (List Char) :=
  let w := cs.takeWhile isPySpace
  if '\n' ∈ w.dropLast then some (cs.dropWhile isPySpace) else none

/-- Outcome declaration of a negative test: `{phase, type}`. -/
structure Negative where
  phase : String
  type : String
deriving DecidableEq

/-- Try `NEGATIVE_PHASE_RE` = `negative:\s*\n\s+phase:\s*(\S+)\s*\n\s+type:\s*(\S+)`
at one position (a line start).  The `(\S+)` groups are the maximal runs of
non-whitespace characters, as the greedy engine produces. -/
def matchNegAt (cs : List Char) : Option Negative :=
  match stripLit (("negative:").data) cs with
  | none => none
  | some r1 =>
    match wsGap r1 with
    | none => none
    | some r2 =>
      match stripLit (("phase:").data) r2 with
      | none => none
      | some r3 =>
        let r4 := r3.dropWhile isPySpace
        let ph := r4.takeWhile (fun c => !isPySpace c)
        if ph.isEmpty then none else
        match wsGap (r4.dropWhile (fun c => !isPySpace c)) with
        | none => none
        | some r5 =>
          match stripLit (("type:").data) r5 with
          | none => none
          | some r6 =>
            let r7 := r6.dropWhile isPySpace
            let ty := r7.takeWhile (fun c => !isPySpace c)
            if ty.isEmpty then none
            else some ⟨String.mk ph, String.mk ty⟩

/-- Suffixes of `cs` that start right after a newline, in text order. -/
def lineStartsAux : List Char → List (List Char)
  | [] => []
  | c :: cs => if c = '\n' then cs :: lineStartsAux cs else lineStartsAux cs

/-- All positions where a `MULTILINE` `^` anchor matches: the start of the
text and every position following a newline, in text order. -/
def lineStarts (cs : List Char) : List (List Char) :=
  cs :: lineStartsAux cs

/-- `re.search` with `NEGATIVE_PHASE_RE` over the front matter: the leftmost
line start where the full phase/type shape matches. -/
def negPhaseSearch (fm : List Char) : Option Negative :=
  (lineStarts fm).findSome? matchNegAt

/-- `re.search` with `NEGATIVE_SIMPLE_RE` = `^negative:` (`MULTILINE`):
some line of the front matter starts with `negative:`. -/
def negSimpleSearch (fm : List Char) : Bool :=
  (lineStarts fm).any (fun s => (("negative:").data).isPrefixOf s)

/-- The `negative` field of the extracted metadata, lines 200-204 of the
script: a full phase/type match wins; otherwise a bare `negative:` line
falls back to phase `runtime` with an empty type. -/
def negativeField (fm : List Char) : Option Negative :=
  match negPhaseSearch fm with
  | some neg => some neg
  | none => if negSimpleSearch fm then some ⟨("runtime"), ("")⟩ else none

/-- Try `^KEY\s*\[([^\]]*)\]` at one line start: literal key, whitespace,
an opening bracket, then the group is everything up to the first `]`,
which must exist. -/
def matchBracketAt (key : List Char) (cs : List Char) : Option (List Char) :=
  match stripLit key cs with
  | none => none
  | some r1 =>
    match r1.dropWhile isPySpace with
    | '[' :: r2 =>
      if ']' ∈ r2 then some (r2.takeWhile (fun c => c ≠ ']')) else none
    | _ => none

/-- `re.search` for the bracketed-list patterns (`FLAGS_RE`, `INCLUDES_RE`,
`FEATURES_RE`): leftmost matching line start. -/
def bracketSearch (key : List Char) (fm : List Char) : Option (List Char) :=
  (lineStarts fm).findSome? (matchBracketAt key)

/-- Python `str.split(",")`: split on commas, keeping empty chunks. -/
def splitComma : List Char → List (List Char)
  | [] => [[]]
  | c :: cs =>
    if c = ',' then [] :: splitComma cs
    else
      match splitComma cs with
      | [] => [[c]]
      | g :: gs => (c :: g) :: gs

/-- Python `str.strip()`: drop whitespace from both ends. -/
def stripWS (cs : List Char) : List Char :=
  ((cs.dropWhile isPySpace).reverse.dropWhile isPySpace).reverse

/-- `[f.strip() for f in grp.split(",") if f.strip()]`. -/
def parseCommaList (grp : List Char) : List String :=
  (((splitComma grp).map stripWS).filter (fun f => ¬ f.isEmpty)).map String.mk

/-- The lazy `(.*?)` of `FRONTMATTER_RE` followed by the closing `\n---*/`:
the (shortest) text before the first occurrence of the closing marker. -/
def splitAtMarker (cs : List Char) : Option (List Char) :=
  if (("\n---*/").data).isPrefixOf cs then some []
  else
    match cs with
    | [] => none
    | c :: rest => (splitAtMarker rest).map (fun b => c :: b)

/-- Indices of newlines inside a character list, in ascending order. -/
def newlineIdxs (w : List Char) : List Nat :=
  (List.range w.length).filter (fun i => w.getD i ' ' = '\n')

/-- `FRONTMATTER_RE` after the literal `/*---`: the greedy `\s*` picks the
latest newline of the maximal whitespace run that still lets the rest of the
pattern match, and the lazy body runs to the first closing marker. -/
def fmBodyAt (cs : List Char) : Option (List Char) :=
  let w := cs.takeWhile isPySpace
  (newlineIdxs w).reverse.findSome? (fun i => splitAtMarker (cs.drop (i + 1)))

/-- `re.search` with `FRONTMATTER_RE = /\*---\s*\n(.*?)\n---\*/` (`DOTALL`):
the leftmost `/*---` from which the whole pattern matches, yielding the
front-matter body. -/
def fmSearch : List Char → Option (List Char)
  | [] => none
  | c :: rest =>
    match (if (("/*---").data).isPrefixOf (c :: rest)
           then fmBodyAt ((c :: rest).drop 5) else none) with
    | some b => some b
    | none => fmSearch rest

/-- The descriptor produced by `parse_frontmatter`.  Python returns a dict
with possibly-absent keys; downstream reads use `.get` with these defaults,
so a fixed-shape record with defaulted fields is observationally equal. -/
structure Metadata where
  flags : List String := []
  includes : List String := []
  negative : Option Negative := none
  features : List String := []
deriving DecidableEq

/-- `parse_frontmatter`, lines 182-212 of the script. -/
def parse_frontmatter (text : List Char) : Metadata :=
  match fmSearch text with
  | none => {}
  | some fm =>
    { flags := ((bracketSearch (("flags:").data) fm).map parseCommaList).getD []
      includes := ((bracketSearch (("includes:").data) fm).map parseCommaList).getD []
      negative := negativeField fm
      features := ((bracketSearch (("features:").data) fm).map parseCommaList).getD [] }

/-- Execution mode of a scenario; the Python code uses the strings
`"default"`, `"strict"`, `"module"`. -/
inductive Mode
  | default
  | strict
  | module
deriving DecidableEq

/-- `compute_scenarios`, lines 219-237: the first-match decision table
expanding one test file into scenarios. -/
def compute_scenarios (test_file : String) (metadata : Metadata) :
    List (String × Mode) :=
  let flags := metadata.flags
  if ("module") ∈ flags then [(test_file, Mode.module)]
  else if ("raw") ∈ flags then [(test_file, Mode.default)]
  else if ("onlyStrict") ∈ flags then [(test_file, Mode.strict)]
  else if ("noStrict") ∈ flags then [(test_file, Mode.default)]
  else [(test_file, Mode.default), (test_file ++ (":strict"), Mode.strict)]

/-- The per-file expansion step of `main`, lines 526-533: a file whose head
cannot be read still contributes one default-mode scenario; otherwise the
first 8192 characters are parsed and `compute_scenarios` is applied. -/
def expandFile (t : String) (content : Option (List Char)) : List (String × Mode) :=
  match content with
  | none => [(t, Mode.default)]
  | some text => compute_scenarios t (parse_frontmatter (text.take 8192))

/-- Python `"\n".join(parts)`. -/
def joinNL : List String → String
  | [] => ("")
  | [p] => p
  | p :: q :: rest => p ++ ("\n") ++ joinNL (q :: rest)

/-- `build_test_source`, lines 269-300: module mode returns the body
unchanged; otherwise parts are accumulated exactly as the script appends
them and joined with newlines.  `harness` maps a harness file name to its
content (`read_harness_file`). -/
def build_test_source (harness : String → String) (source : String)
    (metadata : Metadata) (mode : Mode) : String :=
  let flags := metadata.flags
  let is_async := ("async") ∈ flags
  if mode = Mode.module then source
  else
    let parts : List String := []
    let parts := if mode = Mode.strict then parts ++ [("\"use strict\";\n")] else parts
    let parts :=
      if ("raw") ∈ flags then parts
      else
        let parts := parts ++ [harness ("assert.js")]
        let parts := parts ++ [harness ("sta.js")]
        let parts := if is_async then parts ++ [harness ("doneprintHandle.js")] else parts
        parts ++ metadata.includes.map harness
    let parts := parts ++ [source]
    joinNL parts

/-- The engine-specific capability set (class `EngineAdapter`). -/
structure EngineAdapter where
  is_parse_error : Int → String → Bool
  needs_harness_in_source : Bool → Bool
  skip_module : Bool

/-- `JsseAdapter`: a parse error is exit code 2. -/
def jsseAdapter : EngineAdapter :=
  { is_parse_error := fun exit_code _ => exit_code == 2
    needs_harness_in_source := fun is_module => !is_module
    skip_module := false }

/-- `NodeAdapter`: a parse error is `SyntaxError` on stderr; modules skipped. -/
def nodeAdapter : EngineAdapter :=
  { is_parse_error := fun _ stderr => strContains stderr ("SyntaxError")
    needs_harness_in_source := fun _ => true
    skip_module := true }

/-- `BoaAdapter`: a parse error is `SyntaxError` on stderr. -/
def boaAdapter : EngineAdapter :=
  { is_parse_error := fun _ stderr => strContains stderr ("SyntaxError")
    needs_harness_in_source := fun _ => true
    skip_module := false }

/-- The outcome classification of `run_single_test`, lines 387-402, applied
to the child's exit code and decoded output streams.  (`parse_frontmatter`
always stores a phase with the negative field, so the dict lookup's
`"runtime"` default in line 388 is the structure's stored phase here.) -/
def classify_outcome (adapter : EngineAdapter) (negative : Option Negative)
    (flags : List String) (exit_code : Int) (stdout stderr : String) : Bool :=
  match negative with
  | some neg =>
    if neg.phase = ("parse") then adapter.is_parse_error exit_code stderr
    else exit_code != 0
  | none =>
    if ("async") ∈ flags then
      if strContains stdout ("Test262:AsyncTestComplete") then exit_code == 0
      else if strContains stdout ("Test262:AsyncTestFailure") then false
      else exit_code == 0
    else exit_code == 0

/-- One completed scenario as the orchestrator's aggregation loop sees it:
the triple returned by `run_single_test`. -/
structure RunResult where
  scenario_id : String
  passed : Bool
  skip_reason : String

/-- `skip_reason.startswith("skip_")`, the aggregation loop's skip test. -/
def isSkipped (r : RunResult) : Bool :=
  (("skip_").data).isPrefixOf r.skip_reason.data

/-- The ids accumulated into `pass_list` by the loop at lines 567-577:
non-skipped results that passed. -/
def pass_list (rs : List RunResult) : List String :=
  (rs.filter (fun r => !isSkipped r && r.passed)).map (fun r => r.scenario_id)

/-- The ids accumulated into `fail_list`: non-skipped results that failed. -/
def fail_list (rs : List RunResult) : List String :=
  (rs.filter (fun r => !isSkipped r && !r.passed)).map (fun r => r.scenario_id)

/-- Python string comparison `as <= bs` on the underlying characters:
lexicographic by code point (a proper prefix precedes its extensions). -/
def strLeB : List Char → List Char → Bool
  | [], _ => true
  | _ :: _, [] => false
  | a :: as, b :: bs => if a = b then strLeB as bs else decide (a < b)

/-- Python's `<=` on strings. -/
def pyLe (a b : String) : Prop :=
  strLeB a.data b.data = true

instance : DecidableRel pyLe :=
  fun a b => inferInstanceAs (Decidable (strLeB a.data b.data = true))

/-- Python `sorted(s)` applied to a set given by an enumerating list:
the ascending enumeration of the list's elements, without duplicates. -/
def pySortedSet (l : List String) : List String :=
  List.insertionSort pyLe l.dedup

/-- `ran_tests = set(pass_list + fail_list)`, line 600; membership in the
Python set is membership in this list. -/
def ran_tests (rs : List RunResult) : List String :=
  pass_list rs ++ fail_list rs

/-- `current = set(pass_list)`, line 604. -/
def current (rs : List RunResult) : List String :=
  pass_list rs

/-- `regressions = sorted((baseline & ran_tests) - current)`, line 605:
the ascending enumeration of the set of baseline ids that did run but are
not in the current pass set. -/
def regressions (baseline : List String) (rs : List RunResult) : List String :=
  pySortedSet (baseline.filter (fun x => x ∈ ran_tests rs ∧ x ∉ current rs))

/-- `new_passes = sorted(current - baseline)`, line 606. -/
def new_passes (baseline : List String) (rs : List RunResult) : List String :=
  pySortedSet ((current rs).filter (fun x => x ∉ baseline))

/-- The baseline file's content after the run, lines 601 and 629-631:
written as the sorted pass list (newline-joined, newline-terminated) only
when the invocation had no path filters (`is_full_run = not args.paths`);
otherwise the old content stays. -/
def baselineAfter (paths : List String) (rs : List RunResult)
    (old : Option String) : Option String :=
  if paths.isEmpty then
    some (joinNL (List.insertionSort pyLe (pass_list rs)) ++ ("\n"))
  else old

/-- The process exit code as a function of the setup conditions, lines
507-522: the binary existence check is performed only for the `jsse`
engine; a completed run falls off the end of `main` and exits 0 whatever
the pass and fail counts were. -/
def mainExitCode (engine : String) (binaryIsFile : Bool)
    (corpusTestIsDir : Bool) (numFiles : Nat)
    (_passedCount _failedCount : Nat) : Nat :=
  if engine = ("jsse") && !binaryIsFile then 2
  else if !corpusTestIsDir then 2
  else if numFiles == 0 then 1
  else 0

/-! ### Claims -/

/-- Claim C4: scenario expansion follows the first-match decision table —
`module` flags yield one module-mode scenario; else `raw` yields one
default-mode scenario; else `onlyStrict` one strict-mode scenario; else
`noStrict` one default-mode scenario; else exactly two scenarios, one
default and one strict, with distinct ids (the strict id suffixed). -/
theorem compute_scenarios_decision_table (f : String) (md : Metadata) :
    ((("module")) ∈ md.flags → compute_scenarios f md = [(f, Mode.module)]) ∧
    ((("module")) ∉ md.flags → (("raw")) ∈ md.flags →
      compute_scenarios f md = [(f, Mode.default)]) ∧
    ((("module")) ∉ md.flags → (("raw")) ∉ md.flags →
      (("onlyStrict")) ∈ md.flags → compute_scenarios f md = [(f, Mode.strict)]) ∧
    ((("module")) ∉ md.flags → (("raw")) ∉ md.flags → (("onlyStrict")) ∉ md.flags →
      (("noStrict")) ∈ md.flags → compute_scenarios f md = [(f, Mode.default)]) ∧
    ((("module")) ∉ md.flags → (("raw")) ∉ md.flags → (("onlyStrict")) ∉ md.flags →
      (("noStrict")) ∉ md.flags →
      compute_scenarios f md =
        [(f, Mode.default), (f ++ ((":strict")), Mode.strict)] ∧
      f ≠ f ++ ((":strict"))) := by
  refine ⟨?_, ?_, ?_, ?_, ?_⟩
  · intro h; simp [compute_scenarios, h]
  · intro h1 h2; simp [compute_scenarios, h1, h2]
  · intro h1 h2 h3; simp [compute_scenarios, h1, h2, h3]
  · intro h1 h2 h3 h4; simp [compute_scenarios, h1, h2, h3, h4]
  · intro h1 h2 h3 h4
    refine ⟨by simp [compute_scenarios, h1, h2, h3, h4], ?_⟩
    intro h
    have hl := congrArg String.length h
    rw [String.length_append] at hl
    have h7 : ((":strict")).length = 7 := rfl
    omega

/-- Witness for C4 at concrete inputs, one per row of the decision table. -/
theorem compute_scenarios_decision_table_witness :
    compute_scenarios ("f.js") { flags := [("module")] } = [(("f.js"), Mode.module)] ∧
    compute_scenarios ("f.js") { flags := [("raw")] } = [(("f.js"), Mode.default)] ∧
    compute_scenarios ("f.js") { flags := [("onlyStrict")] } = [(("f.js"), Mode.strict)] ∧
    compute_scenarios ("f.js") { flags := [("noStrict")] } = [(("f.js"), Mode.default)] ∧
    compute_scenarios ("f.js") { flags := [("async")] } =
      [(("f.js"), Mode.default), (("f.js") ++ ((":strict")), Mode.strict)] :=
  ⟨(compute_scenarios_decision_table ("f.js") { flags := [("module")] }).1 (by decide),
   (compute_scenarios_decision_table ("f.js") { flags := [("raw")] }).2.1
     (by decide) (by decide),
   (compute_scenarios_decision_table ("f.js") { flags := [("onlyStrict")] }).2.2.1
     (by decide) (by decide) (by decide),
   (compute_scenarios_decision_table ("f.js") { flags := [("noStrict")] }).2.2.2.1
     (by decide) (by decide) (by decide) (by decide),
   ((compute_scenarios_decision_table ("f.js") { flags := [("async")] }).2.2.2.2
     (by decide) (by decide) (by decide) (by decide)).1⟩

/-- Claim C5: for non-module composition the source is built in the fixed
order — strict pragma first when mode=strict; then, unless flags contain
`raw`, the two mandatory helpers, the async-completion helper when flags
contain `async`, and the declared includes, in that load order; the test
body last. -/
theorem build_test_source_order (harness : String → String) (source : String)
    (md : Metadata) (mode : Mode) (h : mode ≠ Mode.module) :
    build_test_source harness source md mode =
      joinNL ((if mode = Mode.strict then [("\"use strict\";\n")] else []) ++
        (if (("raw")) ∈ md.flags then []
         else [harness ("assert.js"), harness ("sta.js")] ++
           (if (("async")) ∈ md.flags then [harness ("doneprintHandle.js")] else []) ++
           md.includes.map harness) ++
        [source]) := by
  by_cases hs : mode = Mode.strict <;>
    by_cases hr : (("raw")) ∈ md.flags <;>
      by_cases ha : (("async")) ∈ md.flags <;>
        simp [build_test_source, h, hs, hr, ha]

/-- Witness for C5: a strict async scenario with one declared include. -/
theorem build_test_source_order_witness :
    build_test_source (fun n => n) (("body"))
        { flags := [("async")], includes := [("i.js")] } Mode.strict =
      joinNL ([("\"use strict\";\n")] ++
        ([("assert.js"), ("sta.js")] ++ [("doneprintHandle.js")] ++ [("i.js")]) ++
        [("body")]) := by
  have h := build_test_source_order (fun n => n) (("body"))
    { flags := [("async")], includes := [("i.js")] } Mode.strict (by decide)
  simpa using h

/-- Claim C7: composition is the identity on the test body for `raw`
descriptors (whose only scenario is default-mode) and for module-mode
scenarios — nothing is concatenated. -/
theorem build_test_source_identity (harness : String → String) (source : String)
    (f : String) (md : Metadata) :
    ((("raw")) ∈ md.flags → (("module")) ∉ md.flags →
      ∀ p ∈ compute_scenarios f md,
        build_test_source harness source md p.2 = source) ∧
    build_test_source harness source md Mode.module = source := by
  constructor
  · intro hraw hmod p hp
    simp [compute_scenarios, hraw, hmod] at hp
    rw [hp]
    simp [build_test_source, hraw, joinNL]
  · simp [build_test_source]

/-- Witness for C7: a raw descriptor's single (default-mode) scenario and a
module-mode scenario both receive the untouched body. -/
theorem build_test_source_identity_witness :
    build_test_source (fun n => n) (("body")) { flags := [("raw")] } Mode.default =
      ("body") ∧
    build_test_source (fun n => n) (("body")) { flags := [("raw")] } Mode.module =
      ("body") :=
  ⟨(build_test_source_identity (fun n => n) (("body")) (("f.js"))
      { flags := [("raw")] }).1 (by decide) (by decide)
      ((("f.js")), Mode.default) (by decide),
   (build_test_source_identity (fun n => n) (("body")) (("f.js"))
      { flags := [("raw")] }).2⟩

/-- Claim C1, counterexample: the claim says an explicit failure marker in
stdout forces fail even when the success marker is also present, but the
runner checks the success marker first — with both markers in stdout and
exit code 0 the scenario is classified pass. -/
theorem async_both_markers_passes :
    strContains (("Test262:AsyncTestComplete Test262:AsyncTestFailure"))
        (("Test262:AsyncTestFailure")) = true ∧
    strContains (("Test262:AsyncTestComplete Test262:AsyncTestFailure"))
        (("Test262:AsyncTestComplete")) = true ∧
    classify_outcome jsseAdapter none [("async")] 0
        (("Test262:AsyncTestComplete Test262:AsyncTestFailure")) (("")) = true :=
  ⟨by decide, by decide, by decide⟩

/-- Claim C1 as amended: for async, non-negative scenarios — if stdout
contains the success marker, pass iff exit code 0; if stdout contains the
failure marker but not the success marker, fail regardless of exit code;
if neither marker is present, pass iff exit code 0. -/
theorem classify_async (adapter : EngineAdapter) (flags : List String)
    (exit_code : Int) (stdout stderr : String) (ha : (("async")) ∈ flags) :
    (strContains stdout (("Test262:AsyncTestComplete")) = true →
      (classify_outcome adapter none flags exit_code stdout stderr = true ↔
        exit_code = 0)) ∧
    (strContains stdout (("Test262:AsyncTestComplete")) = false →
      strContains stdout (("Test262:AsyncTestFailure")) = true →
      classify_outcome adapter none flags exit_code stdout stderr = false) ∧
    (strContains stdout (("Test262:AsyncTestComplete")) = false →
      strContains stdout (("Test262:AsyncTestFailure")) = false →
      (classify_outcome adapter none flags exit_code stdout stderr = true ↔
        exit_code = 0)) := by
  refine ⟨?_, ?_, ?_⟩
  · intro h1; simp [classify_outcome, ha, h1]
  · intro h1 h2; simp [classify_outcome, ha, h1, h2]
  · intro h1 h2; simp [classify_outcome, ha, h1, h2]

/-- Witness for C1 (amended), one concrete instance per case. -/
theorem classify_async_witness :
    classify_outcome jsseAdapter none [("async")] 0
        (("Test262:AsyncTestComplete")) (("")) = true ∧
    classify_outcome jsseAdapter none [("async")] 0
        (("Test262:AsyncTestFailure")) (("")) = false ∧
    classify_outcome jsseAdapter none [("async")] 1 (("ok")) (("")) = false :=
  ⟨((classify_async jsseAdapter [("async")] 0 (("Test262:AsyncTestComplete"))
      (("")) (by decide)).1 (by decide)).mpr rfl,
   (classify_async jsseAdapter [("async")] 0 (("Test262:AsyncTestFailure"))
      (("")) (by decide)).2.1 (by decide) (by decide),
   by
    have h := ((classify_async jsseAdapter [("async")] 1 (("ok")) ((""))
      (by decide)).2.2 (by decide) (by decide))
    cases hb : classify_outcome jsseAdapter none [("async")] 1 (("ok")) (("")) with
    | false => rfl
    | true => exact absurd (h.mp hb) (by decide)⟩

/-- Claim C6: for a scenario with a negative descriptor, phase `parse`
passes iff the adapter reports a parse error on (exit code, stderr); any
other phase passes iff the exit code is nonzero. -/
theorem classify_negative (adapter : EngineAdapter) (neg : Negative)
    (flags : List String) (exit_code : Int) (stdout stderr : String) :
    (neg.phase = (("parse")) →
      classify_outcome adapter (some neg) flags exit_code stdout stderr =
        adapter.is_parse_error exit_code stderr) ∧
    (neg.phase ≠ (("parse")) →
      (classify_outcome adapter (some neg) flags exit_code stdout stderr = true ↔
        exit_code ≠ 0)) := by
  constructor
  · intro h; simp [classify_outcome, h]
  · intro h; simp [classify_outcome, h]

/-- Witness for C6: with the jsse adapter, a parse-phase negative test at
exit code 2 passes (is_parse_error), and a runtime-phase negative test at
exit code 1 passes. -/
theorem classify_negative_witness :
    classify_outcome jsseAdapter (some ⟨("parse"), ("SyntaxError")⟩) [] 2
        (("")) (("")) = true ∧
    classify_outcome jsseAdapter (some ⟨("runtime"), ("")⟩) [] 1
        (("")) (("")) = true :=
  ⟨((classify_negative jsseAdapter ⟨("parse"), ("SyntaxError")⟩ [] 2
      (("")) (("")) ).1 (by decide)).trans (by decide),
   ((classify_negative jsseAdapter ⟨("runtime"), ("")⟩ [] 1
      (("")) (("")) ).2 (by decide)).mpr (by decide)⟩

/-- Python's string order is total. -/
theorem strLeB_total : ∀ as bs : List Char, strLeB as bs = true ∨ strLeB bs as = true
  | [], _ => Or.inl rfl
  | _ :: _, [] => Or.inr rfl
  | a :: as, b :: bs => by
    by_cases h : a = b
    · subst h
      simpa [strLeB] using strLeB_total as bs
    · have h2 : ¬ b = a := fun e => h e.symm
      rcases lt_or_gt_of_ne h with hlt | hgt
      · left; simp [strLeB, h, hlt]
      · right; simp [strLeB, h2, hgt]

/-- Python's string order is transitive. -/
theorem strLeB_trans : ∀ as bs cs : List Char,
    strLeB as bs = true → strLeB bs cs = true → strLeB as cs = true
  | [], _, _, _, _ => rfl
  | _ :: _, [], _, h1, _ => by simp [strLeB] at h1
  | _ :: _, _ :: _, [], _, h2 => by simp [strLeB] at h2
  | a :: as, b :: bs, c :: cs, h1, h2 => by
    simp only [strLeB] at h1 h2 ⊢
    by_cases hab : a = b
    · subst hab
      rw [if_pos rfl] at h1
      by_cases hac : a = c
      · subst hac
        rw [if_pos rfl] at h2 ⊢
        exact strLeB_trans as bs cs h1 h2
      · rw [if_neg hac] at h2 ⊢
        exact h2
    · rw [if_neg hab] at h1
      have hab' : a < b := of_decide_eq_true h1
      by_cases hbc : b = c
      · subst hbc
        rw [if_neg hab]
        exact h1
      · rw [if_neg hbc] at h2
        have hbc' : b < c := of_decide_eq_true h2
        have hac' : a < c := lt_trans hab' hbc'
        rw [if_neg (ne_of_lt hac')]
        exact decide_eq_true hac'

instance : IsTotal String pyLe :=
  ⟨fun a b => strLeB_total a.data b.data⟩

instance : IsTrans String pyLe :=
  ⟨fun a b c => strLeB_trans a.data b.data c.data⟩

/-- Membership in `pass_list`: exactly the non-skipped passing results. -/
theorem mem_pass_list {rs : List RunResult} {x : String} :
    x ∈ pass_list rs ↔
      ∃ r, r ∈ rs ∧ isSkipped r = false ∧ r.passed = true ∧ r.scenario_id = x := by
  constructor
  · intro hx
    rcases List.mem_map.mp hx with ⟨r, hrf, hid⟩
    rcases List.mem_filter.mp hrf with ⟨hr, hcond⟩
    rw [Bool.and_eq_true] at hcond
    rcases hcond with ⟨h1, h2⟩
    exact ⟨r, hr, by simpa using h1, h2, hid⟩
  · rintro ⟨r, hr, hs, hp, hid⟩
    exact List.mem_map.mpr ⟨r, List.mem_filter.mpr ⟨hr, by simp [hs, hp]⟩, hid⟩

/-- Membership in `fail_list`: exactly the non-skipped failing results. -/
theorem mem_fail_list {rs : List RunResult} {x : String} :
    x ∈ fail_list rs ↔
      ∃ r, r ∈ rs ∧ isSkipped r = false ∧ r.passed = false ∧ r.scenario_id = x := by
  constructor
  · intro hx
    rcases List.mem_map.mp hx with ⟨r, hrf, hid⟩
    rcases List.mem_filter.mp hrf with ⟨hr, hcond⟩
    rw [Bool.and_eq_true] at hcond
    rcases hcond with ⟨h1, h2⟩
    exact ⟨r, hr, by simpa using h1, by simpa using h2, hid⟩
  · rintro ⟨r, hr, hs, hp, hid⟩
    exact List.mem_map.mpr ⟨r, List.mem_filter.mpr ⟨hr, by simp [hs, hp]⟩, hid⟩

/-- `pySortedSet` enumerates exactly the elements of its input. -/
theorem mem_pySortedSet {l : List String} {x : String} :
    x ∈ pySortedSet l ↔ x ∈ l := by
  simp [pySortedSet, List.mem_insertionSort, List.mem_dedup]

/-- Claim C2: with baseline set `B`, executed ids `E = ran_tests` and
current pass set `C`, the regression list is exactly the sorted elements of
`(B ∩ E) \ C` and the new-pass list the sorted elements of `C \ B`; an id
absent from `E` never appears among the regressions.  `E` is exactly the
set of non-skipped scenario ids. -/
theorem regression_law (baseline : List String) (rs : List RunResult) :
    List.Sorted pyLe (regressions baseline rs) ∧
    (∀ x, x ∈ regressions baseline rs ↔
        x ∈ baseline ∧ x ∈ ran_tests rs ∧ x ∉ current rs) ∧
    (∀ x, x ∉ ran_tests rs → x ∉ regressions baseline rs) ∧
    List.Sorted pyLe (new_passes baseline rs) ∧
    (∀ x, x ∈ new_passes baseline rs ↔ x ∈ current rs ∧ x ∉ baseline) ∧
    (∀ x, x ∈ ran_tests rs ↔
        ∃ r, r ∈ rs ∧ isSkipped r = false ∧ r.scenario_id = x) := by
  have hmemr : ∀ x, x ∈ regressions baseline rs ↔
      x ∈ baseline ∧ x ∈ ran_tests rs ∧ x ∉ current rs := by
    intro x
    rw [regressions, mem_pySortedSet, List.mem_filter]
    simp
  refine ⟨?_, hmemr, ?_, ?_, ?_, ?_⟩
  · exact List.sorted_insertionSort _ _
  · intro x hx hmem
    exact hx ((hmemr x).mp hmem).2.1
  · exact List.sorted_insertionSort _ _
  · intro x
    rw [new_passes, mem_pySortedSet, List.mem_filter]
    simp [current]
  · intro x
    rw [ran_tests, List.mem_append, mem_pass_list, mem_fail_list]
    constructor
    · rintro (⟨r, hr, hs, _, hid⟩ | ⟨r, hr, hs, _, hid⟩) <;> exact ⟨r, hr, hs, hid⟩
    · rintro ⟨r, hr, hs, hid⟩
      cases hp : r.passed with
      | true => exact Or.inl ⟨r, hr, hs, hp, hid⟩
      | false => exact Or.inr ⟨r, hr, hs, hp, hid⟩

/-- Witness for C2: a concrete baseline and result set; `a` regressed
(in baseline, executed, not passing) and an unexecuted id is absent. -/
theorem regression_law_witness :
    ("a") ∈ regressions [("a"), ("b")]
        [⟨("a"), false, ("")⟩, ⟨("c"), true, ("")⟩] ∧
    ("zzz") ∉ regressions [("a"), ("b")]
        [⟨("a"), false, ("")⟩, ⟨("c"), true, ("")⟩] := by
  have h := regression_law [("a"), ("b")]
    [⟨("a"), false, ("")⟩, ⟨("c"), true, ("")⟩]
  exact ⟨(h.2.1 (("a"))).mpr ⟨by decide, by decide, by decide⟩,
    h.2.2.1 (("zzz")) (by decide)⟩

/-- Claim C3: a run without path filters rewrites the baseline file to the
sorted current pass list (newline-joined, newline-terminated); the sorted
list is a sorted permutation of the ids that passed this run.  A run with
path filters leaves the baseline file unchanged. -/
theorem baseline_persistence (paths : List String) (rs : List RunResult)
    (old : Option String) :
    (paths = [] →
      baselineAfter paths rs old =
        some (joinNL (List.insertionSort pyLe (pass_list rs)) ++ ("\n")) ∧
      List.Sorted pyLe (List.insertionSort pyLe (pass_list rs)) ∧
      List.Perm (List.insertionSort pyLe (pass_list rs)) (pass_list rs)) ∧
    (paths ≠ [] → baselineAfter paths rs old = old) := by
  constructor
  · intro h
    subst h
    exact ⟨rfl, List.sorted_insertionSort _ _, List.perm_insertionSort _ _⟩
  · intro h
    have : paths.isEmpty = false := by
      cases paths with
      | nil => exact absurd rfl h
      | cons a l => rfl
    simp [baselineAfter, this]

/-- Witness for C3: a full run sorts and stores the pass list; a filtered
run keeps the old baseline content. -/
theorem baseline_persistence_witness :
    baselineAfter [] [⟨("b"), true, ("")⟩, ⟨("a"), true, ("")⟩] none =
      some (("a\nb\n")) ∧
    baselineAfter [("p")] [⟨("b"), true, ("")⟩] (some (("old"))) =
      some (("old")) := by
  constructor
  · exact ((baseline_persistence []
      [⟨("b"), true, ("")⟩, ⟨("a"), true, ("")⟩] none).1 rfl).1.trans (by decide)
  · exact (baseline_persistence [("p")] [⟨("b"), true, ("")⟩]
      (some (("old")))).2 (by decide)

/-- Claim C8, counterexample: the binary existence check runs only for the
`jsse` engine — invoked with engine `node`, a missing binary, an existing
corpus and a nonempty test set, the run proceeds and the process exits 0,
not 2 as the claim requires for every missing engine binary. -/
theorem missing_binary_not_fatal_for_node :
    mainExitCode (("node")) false true 5 3 2 = 0 ∧
    mainExitCode (("node")) false true 5 3 2 ≠ 2 :=
  ⟨by decide, by decide⟩

/-- Claim C8 as amended: a missing binary terminates with exit code 2 only
when the selected engine is `jsse`; a missing corpus directory terminates
with exit code 2; zero discovered test files terminates with exit code 1;
otherwise the run completes and exits 0 regardless of the pass and fail
counts. -/
theorem exit_code_policy (engine : String) (binaryIsFile corpusTestIsDir : Bool)
    (numFiles passedCount failedCount : Nat) :
    (engine = (("jsse")) → binaryIsFile = false →
      mainExitCode engine binaryIsFile corpusTestIsDir numFiles
        passedCount failedCount = 2) ∧
    ((engine = (("jsse")) → binaryIsFile = true) → corpusTestIsDir = false →
      mainExitCode engine binaryIsFile corpusTestIsDir numFiles
        passedCount failedCount = 2) ∧
    ((engine = (("jsse")) → binaryIsFile = true) → corpusTestIsDir = true →
      numFiles = 0 →
      mainExitCode engine binaryIsFile corpusTestIsDir numFiles
        passedCount failedCount = 1) ∧
    ((engine = (("jsse")) → binaryIsFile = true) → corpusTestIsDir = true →
      numFiles ≠ 0 →
      mainExitCode engine binaryIsFile corpusTestIsDir numFiles
        passedCount failedCount = 0) := by
  have hguard : ∀ (h : engine = (("jsse")) → binaryIsFile = true),
      (decide (engine = (("jsse"))) && !binaryIsFile) = false := by
    intro h
    by_cases he : engine = (("jsse"))
    · simp [he, h he]
    · simp [he]
  refine ⟨?_, ?_, ?_, ?_⟩
  · intro h1 h2
    simp [mainExitCode, h1, h2]
  · intro h hc
    simp [mainExitCode, hguard h, hc]
  · intro h hc hn
    simp [mainExitCode, hguard h, hc, hn]
  · intro h hc hn
    simp [mainExitCode, hguard h, hc, hn]

/-- Witness for C8 (amended): one concrete invocation per exit path. -/
theorem exit_code_policy_witness :
    mainExitCode (("jsse")) false true 5 0 0 = 2 ∧
    mainExitCode (("node")) false false 5 0 0 = 2 ∧
    mainExitCode (("jsse")) true true 0 0 0 = 1 ∧
    mainExitCode (("boa")) false true 7 3 4 = 0 :=
  ⟨(exit_code_policy (("jsse")) false true 5 0 0).1 rfl rfl,
   (exit_code_policy (("node")) false false 5 0 0).2.1
     (fun h => absurd h (by decide)) rfl,
   (exit_code_policy (("jsse")) true true 0 0 0).2.2.1 (fun _ => rfl) rfl rfl,
   (exit_code_policy (("boa")) false true 7 3 4).2.2.2
     (fun h => absurd h (by decide)) rfl (by decide)⟩

/-- Claim C9: a corpus file whose head cannot be read still contributes
exactly one scenario, in default mode with no strict duplicate, rather
than being dropped or aborting the run. -/
theorem unreadable_file_one_scenario (t : String) :
    expandFile t none = [(t, Mode.default)] ∧
    (expandFile t none).length = 1 ∧
    (expandFile t none).all (fun p => p.2 == Mode.default) = true :=
  ⟨rfl, rfl, rfl⟩

/-- Claim C10: a front-matter block with a `negative:` line that the
phase/type shape fails to match anywhere still records a negative
descriptor with phase `runtime` and empty type, so the scenario is
classified as a runtime-negative test (pass iff exit code ≠ 0) rather
than as a positive test. -/
theorem negative_fallback (text fm : List Char)
    (hfm : fmSearch text = some fm)
    (hsimple : negSimpleSearch fm = true)
    (hshape : negPhaseSearch fm = none) :
    (parse_frontmatter text).negative = some ⟨("runtime"), ("")⟩ ∧
    ∀ (adapter : EngineAdapter) (flags : List String) (exit_code : Int)
      (stdout stderr : String),
      (classify_outcome adapter ((parse_frontmatter text).negative) flags
          exit_code stdout stderr = true ↔ exit_code ≠ 0) := by
  have hneg : (parse_frontmatter text).negative = some ⟨("runtime"), ("")⟩ := by
    simp [parse_frontmatter, hfm, negativeField, hshape, hsimple]
  refine ⟨hneg, ?_⟩
  intro adapter flags ec so se
  rw [hneg]
  simp [classify_outcome]

/-- Witness for C10: a concrete file whose `negative:` line lacks the
phase/type shape; the descriptor falls back to runtime and a nonzero exit
code classifies as pass. -/
theorem negative_fallback_witness :
    (parse_frontmatter (("/*---\nnegative: bogus\n---*/ body").data)).negative =
      some ⟨("runtime"), ("")⟩ ∧
    classify_outcome jsseAdapter
      ((parse_frontmatter (("/*---\nnegative: bogus\n---*/ body").data)).negative)
      [] 1 (("")) (("")) = true := by
  have h := negative_fallback (("/*---\nnegative: bogus\n---*/ body").data)
    (("negative: bogus").data) (by decide) (by decide) (by decide)
  exact ⟨h.1, (h.2 jsseAdapter [] 1 (("")) ((""))).mpr (by decide)⟩

end Test262
